import Mathlib

/-!
Shallow embedding of the `eztv` Go package (EZTV API client with a torrent
streaming engine).  Pure data (structs, constants) becomes Lean structures and
constants; the HTTP page fetcher is an oracle function
`URLOptions → Except GoError Page`; the infinite poll loop is run over an
arbitrary finite list of tick results (the prefix of ticks that happen before
the governing context is cancelled); channel emission is modelled as the list
of `StreamTorrent` values sent, in order.  Go `int` is modelled as `Int`.
-/

/-- Errors are opaque values in Go; we model the one package-level sentinel
plus arbitrary other errors (transport/decode failures) carrying a tag. -/
inductive GoError where
  | errMissingImdbID : GoError
  | other : String → GoError
deriving DecidableEq

/-- `var ErrMissingImdbID = errors.New("missing imdbID")`. -/
def ErrMissingImdbID : GoError := GoError.errMissingImdbID

/-- `const EZTVBaseURL = "https://eztv.re/api"`. -/
def EZTVBaseURL : String := "https://eztv.re/api"

/-- `StreamRecheckInterval = 5 * time.Minute`, as a `time.Duration` in
nanoseconds (`time.Minute = 60 * 1e9 ns`). -/
def timeMinute : Int := 60 * 1000000000

/-- `const StreamRecheckInterval = 5 * time.Minute`. -/
def StreamRecheckInterval : Int := 5 * timeMinute

/-- `const MaxEZTVAPILimit = 100`. -/
def MaxEZTVAPILimit : Int := 100

/-- The `Torrent` struct from structs.go, all fields. -/
structure Torrent where
  ID : Int
  Hash : String
  Filename : String
  EpisodeURL : String
  TorrentURL : String
  MagnetURL : String
  Title : String
  ImdbID : String
  Season : String
  Episode : String
  SmallScreenshotURL : String
  LargeScreenshotURL : String
  Seeds : Int
  Peers : Int
  DateReleasedUnix : Int
  SizeBytes : String
deriving DecidableEq

/-- The Go zero value of `Torrent` (what an error `StreamTorrent` carries). -/
def zeroTorrent : Torrent :=
  { ID := 0, Hash := "", Filename := "", EpisodeURL := "", TorrentURL := ""
    MagnetURL := "", Title := "", ImdbID := "", Season := "", Episode := ""
    SmallScreenshotURL := "", LargeScreenshotURL := "", Seeds := 0, Peers := 0
    DateReleasedUnix := 0, SizeBytes := "" }

/-- The `Page` struct from structs.go. -/
structure Page where
  ImdbID : String
  TorrentsCount : Int
  Limit : Int
  PageNumber : Int
  Torrents : List Torrent
deriving DecidableEq

/-- The `StreamTorrent` struct: an embedded `Torrent` plus an `Err` field.
A successful event has `err = none` (and in Go `Err = nil`); an error event
carries the zero `Torrent`. -/
structure StreamTorrent where
  torrent : Torrent
  err : Option GoError
deriving DecidableEq

/-- The error event `StreamTorrent{Err: e}` (zero-valued embedded Torrent). -/
def mkErrEvent (e : GoError) : StreamTorrent :=
  { torrent := zeroTorrent, err := some e }

/-- The success event `StreamTorrent{Torrent: t, Err: nil}`. -/
def mkItemEvent (t : Torrent) : StreamTorrent :=
  { torrent := t, err := none }

/-- `URLOptions` from the client source (fields `Page`, `Limit`, `ImdbID`). -/
structure URLOptions where
  Page : Int
  Limit : Int
  ImdbID : String
deriving DecidableEq

/-- `StreamOptions` (fields `ImdbID`, `LastTorrentID`, `RecheckInterval`;
the interval is a `time.Duration` in nanoseconds). -/
structure StreamOptions where
  ImdbID : String
  LastTorrentID : Int
  RecheckInterval : Int
deriving DecidableEq

/-- `strings.TrimPrefix(s, "tt")`: drop a leading `"tt"` if present,
otherwise return the string unchanged (expressed on the underlying
character list so that it evaluates by reduction). -/
def trimTT (s : String) : String :=
  if s.data.take 2 = ['t', 't'] then String.mk (s.data.drop 2) else s

/-- The `Client` struct: the `http.Client` collaborator is opaque (`Unit`),
the `baseURL` field is a string. -/
structure Client where
  client : Unit
  baseURL : String

/-- The functional `Option` type of the package (named `ClientOption` here
because `Option` is taken in Lean). -/
def ClientOption := Client → Client

/-- `WithHTTPClient` sets the (opaque) http client field. -/
def WithHTTPClient (cl : Unit) : ClientOption :=
  fun c => { c with client := cl }

/-- `WithBaseURL` sets the `baseURL` field. -/
def WithBaseURL (url : String) : ClientOption :=
  fun c => { c with baseURL := url }

/-- `New`: start from the default client (`http.DefaultClient`,
`EZTVBaseURL`) and apply each option in order. -/
def New (ops : List ClientOption) : Client :=
  ops.foldl (fun c op => op c) { client := (), baseURL := EZTVBaseURL }

/-- The URL `GetTorrents` sends its request to:
`fmt.Sprintf("%s/get-torrents", EZTVBaseURL)` — note the source uses the
package constant `EZTVBaseURL`, not the receiver's `baseURL` field, so the
receiver is ignored. -/
def getTorrentsURL (_c : Client) : String :=
  EZTVBaseURL ++ "/get-torrents"

/-- The page fetcher consumed by the stream engine: one `GetTorrents` call,
abstracted over HTTP transport and JSON decoding.  Each distinct
`URLOptions` value is queried at most once per resync, so a function of the
options captures any environment behaviour during a resync. -/
def Fetcher : Type := URLOptions → Except GoError Page

/-- The options of a resync page fetch: `Page: i, Limit: MaxEZTVAPILimit`. -/
def pageOpts (imdbID : String) (i : Nat) : URLOptions :=
  { Page := (i : Int), Limit := MaxEZTVAPILimit, ImdbID := imdbID }

/-- The options of the totalCount-discovery fetch and of every poll tick:
`Page: 1, Limit: 1`. -/
def firstPageOpts (imdbID : String) : URLOptions :=
  { Page := 1, Limit := 1, ImdbID := imdbID }

/-- `recheckInterval := streamOptions.RecheckInterval; if 0 then
StreamRecheckInterval` (lines 216–219 of the stream source). -/
def effectiveRecheckInterval (r : Int) : Int :=
  if r = 0 then StreamRecheckInterval else r

/-- `pages := int(math.Ceil(float64(torrentsCount) / MaxEZTVAPILimit))`.
The real ceiling, expressed on `Int` as `-⌊-n / 100⌋`; exact for every count
a float64 represents exactly (all |n| < 2^53). -/
def pageCount (torrentsCount : Int) : Int :=
  -((-torrentsCount).ediv MaxEZTVAPILimit)

/-- The inner emission loop of `fullStreamResync` (lines 287–293):
`for _, torrent := range page.Torrents { torrentsCh <- ...; lastTorrentID =
torrent.ID }`.  Returns the events sent and the final `lastTorrentID`. -/
def emitAll : List Torrent → Int → List StreamTorrent × Int
  | [], lastTorrentID => ([], lastTorrentID)
  | t :: ts, _lastTorrentID =>
    let r := emitAll ts t.ID
    (mkItemEvent t :: r.1, r.2)

/-- The page loop of `fullStreamResync` (lines 275–294):
`for i := pages; i > 0; i--`, with `n` the current value of `i`.  On a fetch
failure, send one error event and return the cursor established so far; on
success, reverse the page (`slices.Reverse`) and emit every torrent. -/
def resyncPages (fetch : Fetcher) (imdbID : String) :
    Nat → Int → List StreamTorrent × Int
  | 0, lastTorrentID => ([], lastTorrentID)
  | n + 1, lastTorrentID =>
    match fetch (pageOpts imdbID (n + 1)) with
    | .error e => ([mkErrEvent e], lastTorrentID)
    | .ok page =>
      let s := emitAll page.Torrents.reverse lastTorrentID
      let r := resyncPages fetch imdbID n s.2
      (s.1 ++ r.1, r.2)

/-- `fullStreamResync` (lines 257–297): discover `TorrentsCount` with a
`Page:1, Limit:1` fetch (on failure emit one error event and return cursor
0), do nothing when the count is 0, otherwise walk the pages backwards.
Returns the events sent and the cursor handed back to the poll loop. -/
def fullStreamResync (fetch : Fetcher) (imdbID : String) :
    List StreamTorrent × Int :=
  match fetch (firstPageOpts imdbID) with
  | .error e => ([mkErrEvent e], 0)
  | .ok page =>
    if page.TorrentsCount = 0 then ([], 0)
    else resyncPages fetch imdbID (pageCount page.TorrentsCount).toNat 0

/-- One poll tick (lines 230–249): fetch `Page:1, Limit:1`; on failure send
one error event and keep the cursor; when the page is empty or its newest
item's ID is `≤ lastTorrentID`, send nothing; otherwise advance the cursor
to the newest ID and send the item.  Returns the events of the tick and the
new cursor. -/
def pollStep (lastTorrentID : Int) (r : Except GoError Page) :
    List StreamTorrent × Int :=
  match r with
  | .error e => ([mkErrEvent e], lastTorrentID)
  | .ok page =>
    match page.Torrents with
    | [] => ([], lastTorrentID)
    | t :: _ =>
      if t.ID ≤ lastTorrentID then ([], lastTorrentID)
      else ([mkItemEvent t], t.ID)

/-- The poll loop (lines 225–251) run over the finite list of tick fetch
results that happen before the context is cancelled (each tick re-fetches
`Page:1, Limit:1`, so the environment's answers are indexed per tick). -/
def pollLoop (lastTorrentID : Int) : List (Except GoError Page) → List StreamTorrent
  | [] => []
  | r :: rs =>
    let s := pollStep lastTorrentID r
    s.1 ++ pollLoop s.2 rs

/-- `TorrentStream` (lines 204–255), as the list of events sent on the
output channel during one stream lifetime: trim a leading `"tt"` from the
ImdbID; when empty, send exactly `StreamTorrent{Err: ErrMissingImdbID}` and
close; when `LastTorrentID = 0` run a full resync first; then run the poll
loop over the given tick results. -/
def TorrentStream (fetch : Fetcher) (streamOptions : StreamOptions)
    (ticks : List (Except GoError Page)) : List StreamTorrent :=
  let imdbID := trimTT streamOptions.ImdbID
  if imdbID = "" then [mkErrEvent ErrMissingImdbID]
  else
    let s :=
      if streamOptions.LastTorrentID = 0 then fullStreamResync fetch imdbID
      else ([], streamOptions.LastTorrentID)
    s.1 ++ pollLoop s.2 ticks

/-- The sequence of `GetTorrents` calls issued by the page loop of
`fullStreamResync`, in order (after a failing call the loop stops). -/
def resyncPagesCalls (fetch : Fetcher) (imdbID : String) : Nat → List URLOptions
  | 0 => []
  | n + 1 =>
    pageOpts imdbID (n + 1) ::
      match fetch (pageOpts imdbID (n + 1)) with
      | .error _ => []
      | .ok _ => resyncPagesCalls fetch imdbID n

/-- The sequence of `GetTorrents` calls issued by `fullStreamResync`:
the discovery call, then the page loop's calls. -/
def fullStreamResyncCalls (fetch : Fetcher) (imdbID : String) : List URLOptions :=
  firstPageOpts imdbID ::
    match fetch (firstPageOpts imdbID) with
    | .error _ => []
    | .ok page =>
      if page.TorrentsCount = 0 then []
      else resyncPagesCalls fetch imdbID (pageCount page.TorrentsCount).toNat

/-- The sequence of `GetTorrents` calls issued during one stream lifetime:
none when the trimmed ImdbID is empty (the goroutine returns before any
fetch), otherwise the resync calls (when `LastTorrentID = 0`) followed by
one `Page:1, Limit:1` call per poll tick. -/
def TorrentStreamCalls (fetch : Fetcher) (streamOptions : StreamOptions)
    (ticks : List (Except GoError Page)) : List URLOptions :=
  let imdbID := trimTT streamOptions.ImdbID
  if imdbID = "" then []
  else
    (if streamOptions.LastTorrentID = 0 then fullStreamResyncCalls fetch imdbID
     else [])
      ++ ticks.map (fun _ => firstPageOpts imdbID)

/-- The IDs of the successful events of a trace, in emission order
(error events have `err ≠ none` and are dropped). -/
def successfulIDs (evs : List StreamTorrent) : List Int :=
  (evs.filter (fun ev => ev.err.isNone)).map (fun ev => ev.torrent.ID)

/-- The sequence of values taken by the active cursor `lastTorrentID`,
given the start value and the emitted events: the cursor is assigned
exactly at each successful emission (lines 244 and 292), to the ID of the
item emitted; error events leave it unchanged. -/
def cursorTrace (start : Int) (evs : List StreamTorrent) : List Int :=
  start :: successfulIDs evs

/-!
A small-step model of the goroutine's blocking behaviour in the poll loop,
for the cancellation claim.  The goroutine has two suspension points per
iteration: the `select` that waits on `ctx.Done()` or the timer (lines
226–229), and the plain channel send `torrentsCh <- ...` (lines 236 and
246) — which in the source is NOT a `select` with `ctx.Done()`, so a send
in flight does not observe cancellation.
-/

/-- The observable control state of the poll-loop goroutine:
blocked in the `select` (timer wait), blocked sending an event on the
unbuffered output channel, or returned (output channel closed by the
`defer close`). -/
inductive PollState where
  | selecting : Int → PollState
  | sending : StreamTorrent → Int → PollState
  | closed : PollState
deriving DecidableEq

/-- One scheduler event delivered to the goroutine: the context is
cancelled, the poll timer fires together with the result of the ensuing
`GetTorrents` call, or the consumer receives from the output channel. -/
inductive PollInput where
  | cancel : PollInput
  | timer : Except GoError Page → PollInput
  | recv : PollInput

/-- One step of the poll-loop goroutine.  At the `select`, a cancelled
context is observed and the goroutine returns (closing the channel); a
timer tick runs lines 230–249 up to the point of the next send, if any.
At a send, only a consumer receive makes progress — the source's sends are
not guarded by `ctx.Done()`, so a cancel input there is a no-op.  The
second component is the event delivered to the consumer by the step, if
any. -/
def pollMachineStep : PollState → PollInput → PollState × Option StreamTorrent
  | .selecting _, .cancel => (.closed, none)
  | .selecting c, .timer r =>
    (match r with
     | .error e => (.sending (mkErrEvent e) c, none)
     | .ok page =>
       match page.Torrents with
       | [] => (.selecting c, none)
       | t :: _ =>
         if t.ID ≤ c then (.selecting c, none)
         else (.sending (mkItemEvent t) t.ID, none))
  | .selecting c, .recv => (.selecting c, none)
  | .sending ev c, .recv => (.selecting c, some ev)
  | .sending ev c, .cancel => (.sending ev c, none)
  | .sending ev c, .timer _ => (.sending ev c, none)
  | .closed, _ => (.closed, none)

/-- Run the poll-loop goroutine over a list of scheduler inputs, collecting
the events delivered to the consumer, in order. -/
def pollMachineRun : PollState → List PollInput → List StreamTorrent
  | _, [] => []
  | s, i :: is =>
    let r := pollMachineStep s i
    r.2.toList ++ pollMachineRun r.1 is

/-- A torrent that differs from the zero value only in its ID, used to
build concrete upstream responses. -/
def demoTorrent (n : Int) : Torrent :=
  { zeroTorrent with ID := n }

/-- A concrete one-item page for the cancellation scenario. -/
def pollDemoPage : Page :=
  { ImdbID := "demo", TorrentsCount := 1, Limit := 1, PageNumber := 1
    Torrents := [demoTorrent 1] }

/-!
The spec's data model for the upstream collection (section 3): items carry
integer IDs assigned monotonically at creation (higher ID = newer), a page
lists its items newest-first, and pagination of the collection is
consistent — a higher page number holds strictly older items than a lower
one.  The cursor sentinel `0` (= "no history") presumes real item IDs are
positive.  The code performs no ID filtering during resync, so these
environment assumptions are what the ordering invariants of the spec rest
on; they are stated as predicates on the fetcher, restricted to the
`Limit = MaxEZTVAPILimit` page fetches the resync actually emits from
(the `Limit = 1` discovery and poll responses need no assumption: their
items are either ignored or filtered against the cursor). -/

/-- Every successfully fetched resync page lists its torrents in strictly
decreasing ID order (newest-first). -/
def SortedPages (fetch : Fetcher) (imdbID : String) : Prop :=
  ∀ (i : Nat) (p : Page), fetch (pageOpts imdbID i) = Except.ok p →
    List.Chain' (· > ·) (p.Torrents.map Torrent.ID)

/-- Pagination is consistent across pages: every torrent of a
higher-numbered (older) resync page has a strictly smaller ID than every
torrent of a lower-numbered (newer) one. -/
def CrossPageConsistent (fetch : Fetcher) (imdbID : String) : Prop :=
  ∀ (i j : Nat) (p q : Page), 1 ≤ i → i < j →
    fetch (pageOpts imdbID i) = Except.ok p →
    fetch (pageOpts imdbID j) = Except.ok q →
    ∀ a ∈ q.Torrents, ∀ b ∈ p.Torrents, a.ID < b.ID

/-- All item IDs on resync pages are positive (the code uses cursor `0` as
the "no history" sentinel). -/
def PositiveIDs (fetch : Fetcher) (imdbID : String) : Prop :=
  ∀ (i : Nat) (p : Page), fetch (pageOpts imdbID i) = Except.ok p →
    ∀ t ∈ p.Torrents, 0 < t.ID

/-- The invariant threaded through the resync page loop: the current cursor
is strictly below every ID on every not-yet-processed page (pages `1..n`). -/
def LowerBound (fetch : Fetcher) (imdbID : String) (n : Nat) (c : Int) : Prop :=
  ∀ (i : Nat) (p : Page), 1 ≤ i → i ≤ n →
    fetch (pageOpts imdbID i) = Except.ok p → ∀ t ∈ p.Torrents, c < t.ID

/-- A concrete data-model-conforming fetcher: 2 torrents in total, all on
resync page 1 (IDs 2, 1 newest-first); any other resync page fails. -/
def wFetch : Fetcher := fun o =>
  if o.Limit = 1 then
    Except.ok { ImdbID := "55", TorrentsCount := 2, Limit := 1
                PageNumber := 1, Torrents := [demoTorrent 2] }
  else if o.Page = 1 then
    Except.ok { ImdbID := "55", TorrentsCount := 2, Limit := 100
                PageNumber := 1, Torrents := [demoTorrent 2, demoTorrent 1] }
  else
    Except.error (GoError.other "x")

/-- Stream options for the witness runs: full resync for show `tt55`. -/
def wOpts : StreamOptions :=
  { ImdbID := "tt55", LastTorrentID := 0, RecheckInterval := 0 }

/-- Stream options for the witness runs: resume from cursor 5. -/
def wOptsResume : StreamOptions :=
  { ImdbID := "55", LastTorrentID := 5, RecheckInterval := 0 }

/-- A poll-tick response whose newest item has ID 3. -/
def wTickPage : Page :=
  { ImdbID := "55", TorrentsCount := 3, Limit := 1, PageNumber := 1
    Torrents := [demoTorrent 3] }

/-- A poll-tick response whose newest item has ID 9. -/
def wTickPage9 : Page :=
  { ImdbID := "55", TorrentsCount := 9, Limit := 1, PageNumber := 1
    Torrents := [demoTorrent 9] }

/-- The IDs of a concrete 250-item collection, newest-first:
250, 249, …, 1. -/
def demoIDs : List Int :=
  (List.range 250).map (fun k => (250 - k : Int))

/-- Resync page `i` of the concrete collection: the `i`-th block of 100
IDs of `demoIDs` (page 1 newest). -/
def demoPageTorrents (i : Nat) : List Torrent :=
  ((demoIDs.drop ((i - 1) * 100)).take 100).map demoTorrent

/-- A concrete fetcher over the 250-item collection: the `Limit = 1`
discovery/poll call reports `TorrentsCount = 250` with the single newest
item; a resync page call returns its 100-ID block. -/
def demoFetch : Fetcher := fun o =>
  if o.Limit = 1 then
    Except.ok { ImdbID := "demo", TorrentsCount := 250, Limit := 1
                PageNumber := o.Page, Torrents := [demoTorrent 250] }
  else
    Except.ok { ImdbID := "demo", TorrentsCount := 250, Limit := o.Limit
                PageNumber := o.Page, Torrents := demoPageTorrents o.Page.toNat }

/-- A concrete fetcher whose resync fails on page 2: the discovery call
reports 250 torrents (3 pages); page 3 succeeds with one torrent of ID 7;
page 2 fails; page 1 is never reached. -/
def cFetch : Fetcher := fun o =>
  if o.Limit = 1 then
    Except.ok { ImdbID := "77", TorrentsCount := 250, Limit := 1
                PageNumber := 1, Torrents := [demoTorrent 250] }
  else if o.Page = 3 then
    Except.ok { ImdbID := "77", TorrentsCount := 250, Limit := 100
                PageNumber := 3, Torrents := [demoTorrent 7] }
  else
    Except.error (GoError.other "net")

/-! ## Theorems -/

/-- Helper: `map` commutes with `getLast?`. -/
theorem getLast?_map_fn {α β : Type} (f : α → β) :
    ∀ l : List α, (l.map f).getLast? = (l.getLast?).map f
  | [] => rfl
  | [a] => rfl
  | a :: b :: l => by
    rw [List.map_cons, List.map_cons, List.getLast?_cons_cons,
      List.getLast?_cons_cons, ← List.map_cons]
    exact getLast?_map_fn f (b :: l)

/-- Helper: `successfulIDs` distributes over list append. -/
theorem successfulIDs_append (a b : List StreamTorrent) :
    successfulIDs (a ++ b) = successfulIDs a ++ successfulIDs b := by
  simp [successfulIDs]

/-- Helper: the successful IDs of a run of item events are the torrent IDs. -/
theorem successfulIDs_items (ts : List Torrent) :
    successfulIDs (ts.map mkItemEvent) = ts.map Torrent.ID := by
  induction ts with
  | nil => rfl
  | cons t ts ih => simpa [successfulIDs, mkItemEvent] using ih

/-- Helper: an error event contributes no successful ID. -/
theorem successfulIDs_errEvent (e : GoError) :
    successfulIDs [mkErrEvent e] = [] := rfl

/-- Helper: the events of `emitAll` are exactly one success event per
torrent, in order. -/
theorem emitAll_fst : ∀ (ts : List Torrent) (c : Int),
    (emitAll ts c).1 = ts.map mkItemEvent
  | [], _ => rfl
  | t :: ts, c => by simp [emitAll, emitAll_fst ts t.ID]

/-- Helper: `emitAll` leaves the cursor at the last torrent's ID, or at its
input value when the list is empty. -/
theorem emitAll_snd : ∀ (ts : List Torrent) (c : Int),
    (emitAll ts c).2 = (((ts.getLast?).map Torrent.ID).getD c)
  | [], _ => rfl
  | [t], c => rfl
  | t :: u :: ts, c => by
    rw [List.getLast?_cons_cons]
    exact emitAll_snd (u :: ts) t.ID ▸ by simp [emitAll]

/-- Helper: trimming the `"tt"` prefix of the empty string is the empty
string. -/
theorem trimTT_empty : trimTT "" = "" := by decide

/-- C5: if the ImdbID supplied at stream open is empty, the stream emits
exactly one event — the error `ErrMissingImdbID` — then closes, and no page
fetcher call is performed. -/
theorem missing_imdbid_single_error_event (fetch : Fetcher)
    (streamOptions : StreamOptions) (ticks : List (Except GoError Page))
    (h : streamOptions.ImdbID = "") :
    TorrentStream fetch streamOptions ticks = [mkErrEvent ErrMissingImdbID]
      ∧ TorrentStreamCalls fetch streamOptions ticks = [] := by
  constructor
  · simp [TorrentStream, h, trimTT_empty]
  · simp [TorrentStreamCalls, h, trimTT_empty]

/-- C5 witness: the concrete stream opened with an empty ImdbID. -/
theorem missing_imdbid_single_error_event_witness :
    TorrentStream (fun _ => Except.ok pollDemoPage)
        { ImdbID := "", LastTorrentID := 0, RecheckInterval := 0 }
        [Except.ok pollDemoPage]
      = [mkErrEvent ErrMissingImdbID]
      ∧ TorrentStreamCalls (fun _ => Except.ok pollDemoPage)
        { ImdbID := "", LastTorrentID := 0, RecheckInterval := 0 }
        [Except.ok pollDemoPage] = [] :=
  missing_imdbid_single_error_event (fun _ => Except.ok pollDemoPage)
    { ImdbID := "", LastTorrentID := 0, RecheckInterval := 0 }
    [Except.ok pollDemoPage] rfl

/-- C7: a fetch failure during a poll tick produces exactly one error event
with the cursor unchanged, and the loop goes on processing the remaining
ticks from the same cursor — the stream stays open, so subsequent
successful ticks still emit items. -/
theorem poll_fetch_failure_nonfatal (lastTorrentID : Int) (e : GoError)
    (rs : List (Except GoError Page)) :
    pollStep lastTorrentID (Except.error e) = ([mkErrEvent e], lastTorrentID)
      ∧ pollLoop lastTorrentID (Except.error e :: rs)
        = mkErrEvent e :: pollLoop lastTorrentID rs := by
  constructor
  · rfl
  · simp [pollLoop, pollStep]

/-- C9: a zero RecheckInterval falls back to `StreamRecheckInterval`, which
is exactly 5 minutes (300 000 000 000 ns); a non-zero interval is used
unchanged. -/
theorem recheck_interval_default (r : Int) (h : r ≠ 0) :
    effectiveRecheckInterval 0 = StreamRecheckInterval
      ∧ StreamRecheckInterval = 5 * timeMinute
      ∧ StreamRecheckInterval = 300000000000
      ∧ effectiveRecheckInterval r = r := by
  refine ⟨rfl, rfl, by decide, ?_⟩
  simp [effectiveRecheckInterval, h]

/-- C9 witness: a concrete non-zero interval is used unchanged. -/
theorem recheck_interval_default_witness :
    effectiveRecheckInterval 0 = StreamRecheckInterval
      ∧ StreamRecheckInterval = 5 * timeMinute
      ∧ StreamRecheckInterval = 300000000000
      ∧ effectiveRecheckInterval 7 = 7 :=
  recheck_interval_default 7 (by decide)

/-- C10: `GetTorrents` builds its URL from the package constant
`EZTVBaseURL`, not from the receiver's `baseURL` field, so every client —
including one constructed with `WithBaseURL u` — sends the request to
`https://eztv.re/api/get-torrents`, even though `WithBaseURL` does set the
field. -/
theorem gettorrents_url_ignores_baseurl (c : Client) (u : String) :
    getTorrentsURL c = "https://eztv.re/api/get-torrents"
      ∧ getTorrentsURL (New [WithBaseURL u]) = "https://eztv.re/api/get-torrents"
      ∧ (New [WithBaseURL u]).baseURL = u := by
  refine ⟨?_, ?_, rfl⟩ <;> simp only [getTorrentsURL] <;> decide

/-- C4 counterexample: the emission wait is NOT a cancellation point.  With
the goroutine blocked sending an item (state `sending`), a `cancel` input
leaves it blocked sending — it does not close the stream — and in the
concrete run `[timer(ok page), cancel, recv]` the item event is still
delivered to the consumer after the governing context was cancelled.  This
is because the channel sends at lines 236 and 246 are not wrapped in a
`select` with `ctx.Done()`. -/
theorem cancel_ignored_at_emission_wait :
    pollMachineStep (PollState.sending (mkItemEvent (demoTorrent 1)) 1)
        PollInput.cancel
      = (PollState.sending (mkItemEvent (demoTorrent 1)) 1, none)
      ∧ pollMachineRun (PollState.selecting 0)
          [PollInput.timer (Except.ok pollDemoPage), PollInput.cancel,
            PollInput.recv]
        = [mkItemEvent (demoTorrent 1)] := by
  constructor
  · rfl
  · decide

/-- C4 (amended): cancellation is observed only at the poll-timer `select`;
once observed there, the goroutine returns (the output channel is closed)
and no further event is ever produced.  An emission wait does not check
cancellation: a cancel input at a `sending` state is a no-op, and the
pending event is still delivered when the consumer receives. -/
theorem cancel_observed_only_at_timer_wait :
    (∀ c : Int,
        pollMachineStep (PollState.selecting c) PollInput.cancel
          = (PollState.closed, none))
      ∧ (∀ inputs : List PollInput, pollMachineRun PollState.closed inputs = [])
      ∧ (∀ (ev : StreamTorrent) (c : Int),
          pollMachineStep (PollState.sending ev c) PollInput.cancel
            = (PollState.sending ev c, none))
      ∧ (∀ (ev : StreamTorrent) (c : Int),
          pollMachineStep (PollState.sending ev c) PollInput.recv
            = (PollState.selecting c, some ev)) := by
  refine ⟨fun c => rfl, ?_, fun ev c => rfl, fun ev c => rfl⟩
  intro inputs
  induction inputs with
  | nil => rfl
  | cons i is ih => cases i <;> simpa [pollMachineRun, pollMachineStep] using ih

/-- Helper: the event trace of the resync page loop is a run of success
events, optionally terminated by a single error event (the loop aborts at
the first fetch failure). -/
theorem resyncPages_shape (fetch : Fetcher) (imdbID : String) :
    ∀ (n : Nat) (c : Int),
      (∃ ts : List Torrent,
          (resyncPages fetch imdbID n c).1 = ts.map mkItemEvent)
        ∨ (∃ (ts : List Torrent) (e : GoError),
            (resyncPages fetch imdbID n c).1
              = ts.map mkItemEvent ++ [mkErrEvent e])
  | 0, _ => Or.inl ⟨[], rfl⟩
  | n + 1, c => by
    rcases hf : fetch (pageOpts imdbID (n + 1)) with e | page
    · exact Or.inr ⟨[], e, by simp [resyncPages, hf]⟩
    · rcases resyncPages_shape fetch imdbID n
          (emitAll page.Torrents.reverse c).2 with ⟨ts, h⟩ | ⟨ts, e, h⟩
      · exact Or.inl ⟨page.Torrents.reverse ++ ts, by
          simp [resyncPages, hf, emitAll_fst, h]⟩
      · exact Or.inr ⟨page.Torrents.reverse ++ ts, e, by
          simp [resyncPages, hf, emitAll_fst, h]⟩

/-- Helper: after the resync page loop, the cursor is the ID of the last
successfully emitted item, or its starting value when nothing was
emitted — in every case, including an aborted loop. -/
theorem resyncPages_cursor (fetch : Fetcher) (imdbID : String) :
    ∀ (n : Nat) (c : Int),
      (resyncPages fetch imdbID n c).2
        = ((successfulIDs (resyncPages fetch imdbID n c).1).getLast?).getD c
  | 0, _ => rfl
  | n + 1, c => by
    rcases hf : fetch (pageOpts imdbID (n + 1)) with e | page
    · simp [resyncPages, hf, successfulIDs_errEvent]
    · have ih := resyncPages_cursor fetch imdbID n
        (emitAll page.Torrents.reverse c).2
      simp only [resyncPages, hf]
      rw [successfulIDs_append, emitAll_fst, successfulIDs_items,
        List.getLast?_append]
      rcases hlast : (successfulIDs
          (resyncPages fetch imdbID n (emitAll page.Torrents.reverse c).2).1).getLast? with _ | x
      · rw [hlast] at ih
        rw [ih, emitAll_snd, getLast?_map_fn, Option.none_or]
        rcases page.Torrents.reverse.getLast? with _ | t <;> rfl
      · rw [hlast] at ih
        simp [ih]

/-- Helper: when page `i` is the first page the loop reaches whose fetch
fails (every page above `i` succeeds), the loop's trace is some successful
items followed by exactly the one error event for that failure. -/
theorem resyncPages_first_fail (fetch : Fetcher) (imdbID : String) :
    ∀ (n : Nat) (c : Int) (i : Nat) (e : GoError), 1 ≤ i → i ≤ n →
      fetch (pageOpts imdbID i) = Except.error e →
      (∀ j : Nat, i < j → j ≤ n → ∃ q, fetch (pageOpts imdbID j) = Except.ok q) →
      ∃ ts : List Torrent,
        (resyncPages fetch imdbID n c).1 = ts.map mkItemEvent ++ [mkErrEvent e]
  | 0, _, i, e, h1, h2, _, _ => absurd (Nat.le_trans h1 h2) (by omega)
  | n + 1, c, i, e, h1, h2, hfail, hsucc => by
    by_cases hi : i = n + 1
    · subst hi
      exact ⟨[], by simp [resyncPages, hfail]⟩
    · have hin : i ≤ n := by omega
      obtain ⟨q, hq⟩ := hsucc (n + 1) (by omega) (Nat.le_refl _)
      obtain ⟨ts, hts⟩ := resyncPages_first_fail fetch imdbID n
        (emitAll q.Torrents.reverse c).2 i e h1 hin hfail
        (fun j hj1 hj2 => hsucc j hj1 (by omega))
      exact ⟨q.Torrents.reverse ++ ts, by
        simp [resyncPages, hq, emitAll_fst, hts]⟩

/-- Helper: success events never pass the error filter. -/
theorem filter_isSome_items (ts : List Torrent) :
    (ts.map mkItemEvent).filter (fun ev => ev.err.isSome) = [] := by
  induction ts with
  | nil => rfl
  | cons t ts ih => simp [mkItemEvent, ih]

/-- C6: any page-fetch failure during full resync emits exactly one error
event and aborts the resync.  Conjuncts: (1) a failing discovery fetch
yields exactly the one error event and cursor 0; (2) in every case the
returned cursor is the ID of the last successfully emitted item, or 0 when
none was emitted; (3) the resync never emits anything after an error event
(an error, if any, is the final event); (4) when page `i` is the first page
whose fetch fails (all higher pages succeed), the resync trace contains
exactly one error event — the one for that failure — and it is the final
event. -/
theorem resync_fetch_failure_aborts (fetch : Fetcher) (imdbID : String) :
    (∀ e : GoError, fetch (firstPageOpts imdbID) = Except.error e →
        fullStreamResync fetch imdbID = ([mkErrEvent e], 0))
      ∧ (fullStreamResync fetch imdbID).2
          = ((successfulIDs (fullStreamResync fetch imdbID).1).getLast?).getD 0
      ∧ (∀ ev ∈ (fullStreamResync fetch imdbID).1.dropLast, ev.err = none)
      ∧ (∀ (p0 : Page) (i : Nat) (e : GoError),
          fetch (firstPageOpts imdbID) = Except.ok p0 → 1 ≤ i →
          (i : Int) ≤ pageCount p0.TorrentsCount →
          fetch (pageOpts imdbID i) = Except.error e →
          (∀ j : Nat, i < j → (j : Int) ≤ pageCount p0.TorrentsCount →
            ∃ q, fetch (pageOpts imdbID j) = Except.ok q) →
          (fullStreamResync fetch imdbID).1.filter (fun ev => ev.err.isSome)
              = [mkErrEvent e]
            ∧ (fullStreamResync fetch imdbID).1.getLast?
              = some (mkErrEvent e)) := by
  refine ⟨?_, ?_, ?_, ?_⟩
  · intro e he
    simp [fullStreamResync, he]
  · rcases hf : fetch (firstPageOpts imdbID) with e | page
    · simp [fullStreamResync, hf, successfulIDs, mkErrEvent]
    · by_cases hc : page.TorrentsCount = 0
      · simp [fullStreamResync, hf, hc, successfulIDs]
      · simpa [fullStreamResync, hf, hc] using
          resyncPages_cursor fetch imdbID (pageCount page.TorrentsCount).toNat 0
  · rcases hf : fetch (firstPageOpts imdbID) with e | page
    · simp [fullStreamResync, hf]
    · by_cases hc : page.TorrentsCount = 0
      · simp [fullStreamResync, hf, hc]
      · intro ev hev
        simp only [fullStreamResync, hf, if_neg hc] at hev
        rcases resyncPages_shape fetch imdbID
            (pageCount page.TorrentsCount).toNat 0 with ⟨ts, h⟩ | ⟨ts, e, h⟩
        · rw [h] at hev
          obtain ⟨t, _, rfl⟩ := List.mem_map.1 (List.dropLast_subset _ hev)
          rfl
        · rw [h, List.dropLast_concat] at hev
          obtain ⟨t, _, rfl⟩ := List.mem_map.1 hev
          rfl
  · intro p0 i e hp0 h1 h2 hfail hsucc
    have hn : i ≤ (pageCount p0.TorrentsCount).toNat := by omega
    have hc : p0.TorrentsCount ≠ 0 := by
      intro h0
      rw [h0] at h2
      have hz : pageCount 0 = 0 := by decide
      rw [hz] at h2
      omega
    obtain ⟨ts, hts⟩ := resyncPages_first_fail fetch imdbID
      (pageCount p0.TorrentsCount).toNat 0 i e h1 hn hfail
      (fun j hj1 hj2 => hsucc j hj1 (by omega))
    constructor
    · simp [fullStreamResync, hp0, hc, hts, List.filter_append,
        filter_isSome_items, mkErrEvent]
    · simp [fullStreamResync, hp0, hc, hts, List.getLast?_concat]

/-- C6 witness: the concrete fetcher `cFetch` fails on resync page 2; the
resync trace carries exactly the one error event for that failure and the
returned cursor is the last successfully emitted ID. -/
theorem resync_fetch_failure_aborts_witness :
    (fullStreamResync cFetch "77").1.filter (fun ev => ev.err.isSome)
        = [mkErrEvent (GoError.other "net")]
      ∧ (fullStreamResync cFetch "77").2
        = ((successfulIDs (fullStreamResync cFetch "77").1).getLast?).getD 0 := by
  have h := resync_fetch_failure_aborts cFetch "77"
  refine ⟨(h.2.2.2 _ 2 (GoError.other "net") rfl (by decide) (by decide)
    rfl ?_).1, h.2.1⟩
  intro j hj1 hj2
  rw [show pageCount (250 : Int) = 3 from by decide] at hj2
  have hj : j = 3 := by omega
  subst hj
  exact ⟨_, rfl⟩

/-- Helper: gluing two strict chains that share their junction value. -/
theorem chain_append_cursor {c m : Int} {l₁ l₂ : List Int}
    (h₁ : List.Chain' (· < ·) (c :: l₁))
    (h₂ : (c :: l₁).getLast? = some m)
    (h₃ : List.Chain' (· < ·) (m :: l₂)) :
    List.Chain' (· < ·) (c :: (l₁ ++ l₂)) := by
  rw [← List.cons_append]
  refine List.chain'_append.2 ⟨h₁, (List.chain'_cons'.1 h₃).2, ?_⟩
  intro x hx y hy
  rw [h₂] at hx
  cases hx
  exact (List.chain'_cons'.1 h₃).1 y hy

/-- Helper: the last element of glued chains is the last of the second. -/
theorem getLast?_append_cursor {c m k : Int} {l₁ l₂ : List Int}
    (h₂ : (c :: l₁).getLast? = some m)
    (h₄ : (m :: l₂).getLast? = some k) :
    (c :: (l₁ ++ l₂)).getLast? = some k := by
  rw [← List.cons_append, List.getLast?_append]
  rcases l₂ with _ | ⟨x, xs⟩
  · rw [h₂]
    cases h₄
    rfl
  · rw [List.getLast?_cons_cons] at h₄
    rw [h₄]
    rfl

/-- Helper: the successful IDs of the poll loop form a strict ascending
chain rooted at the cursor the loop starts from — every emission is
strictly above the cursor at its time, unconditionally. -/
theorem pollLoop_chain : ∀ (rs : List (Except GoError Page)) (c : Int),
    List.Chain' (· < ·) (c :: successfulIDs (pollLoop c rs))
  | [], c => by simp [pollLoop, successfulIDs]
  | r :: rs, c => by
    rcases r with e | page
    · simpa [pollLoop, pollStep, successfulIDs, mkErrEvent] using
        pollLoop_chain rs c
    · rcases hts : page.Torrents with _ | ⟨t, rest⟩
      · simpa [pollLoop, pollStep, hts] using pollLoop_chain rs c
      · by_cases hle : t.ID ≤ c
        · simpa [pollLoop, pollStep, hts, hle] using pollLoop_chain rs c
        · have ih := pollLoop_chain rs t.ID
          simp only [pollLoop, pollStep, hts, if_neg hle]
          rw [successfulIDs_append,
            show successfulIDs [mkItemEvent t] = [t.ID] from rfl,
            List.singleton_append]
          exact List.chain'_cons.2 ⟨by omega, ih⟩

/-- Helper: under the data-model assumptions, the resync page loop emits a
strict ascending ID chain rooted at the incoming cursor, and the cursor it
returns is the last element of that chain. -/
theorem resyncPages_chain (fetch : Fetcher) (imdbID : String)
    (hs : SortedPages fetch imdbID) (hc : CrossPageConsistent fetch imdbID) :
    ∀ (n : Nat) (c : Int), LowerBound fetch imdbID n c →
      List.Chain' (· < ·) (c :: successfulIDs (resyncPages fetch imdbID n c).1)
        ∧ (c :: successfulIDs (resyncPages fetch imdbID n c).1).getLast?
            = some (resyncPages fetch imdbID n c).2
  | 0, c, _ => by simp [resyncPages, successfulIDs]
  | n + 1, c, hlb => by
    rcases hf : fetch (pageOpts imdbID (n + 1)) with e | page
    · constructor
      · simp [resyncPages, hf, successfulIDs, mkErrEvent]
      · simp [resyncPages, hf, successfulIDs, mkErrEvent]
    · have hsorted : List.Chain' (· < ·)
          (page.Torrents.reverse.map Torrent.ID) := by
        rw [List.map_reverse, List.chain'_reverse]
        exact hs (n + 1) page hf
      have hhead : ∀ y ∈ (page.Torrents.reverse.map Torrent.ID).head?,
          c < y := by
        intro y hy
        rw [List.head?_map] at hy
        obtain ⟨t, ht, rfl⟩ := Option.map_eq_some'.1 hy
        exact hlb (n + 1) page (by omega) (Nat.le_refl _) hf t
          (List.mem_reverse.1 (List.mem_of_mem_head? ht))
      have hchain1 : List.Chain' (· < ·)
          (c :: page.Torrents.reverse.map Torrent.ID) :=
        List.chain'_cons'.2 ⟨hhead, hsorted⟩
      have hlast1 : (c :: page.Torrents.reverse.map Torrent.ID).getLast?
          = some (emitAll page.Torrents.reverse c).2 := by
        rw [emitAll_snd]
        rcases hlast : page.Torrents.reverse.getLast? with _ | a
        · rw [List.getLast?_eq_none_iff.1 hlast]
          rfl
        · rw [show (c :: page.Torrents.reverse.map Torrent.ID)
              = [c] ++ page.Torrents.reverse.map Torrent.ID from rfl,
            List.getLast?_append, getLast?_map_fn, hlast]
          rfl
      have hlb' : LowerBound fetch imdbID n (emitAll page.Torrents.reverse c).2 := by
        intro i p h1 h2 hfi t ht
        rw [emitAll_snd]
        rcases hlast : page.Torrents.reverse.getLast? with _ | a
        · simpa using hlb i p h1 (by omega) hfi t ht
        · have ha : a ∈ page.Torrents :=
            List.mem_reverse.1 (List.mem_of_mem_getLast? hlast)
          simpa using hc i (n + 1) p page h1 (by omega) hfi hf a ha t ht
      obtain ⟨ih1, ih2⟩ := resyncPages_chain fetch imdbID hs hc n
        (emitAll page.Torrents.reverse c).2 hlb'
      constructor
      · simp only [resyncPages, hf]
        rw [successfulIDs_append, emitAll_fst, successfulIDs_items]
        exact chain_append_cursor hchain1 hlast1 ih1
      · simp only [resyncPages, hf]
        rw [successfulIDs_append, emitAll_fst, successfulIDs_items]
        exact getLast?_append_cursor hlast1 ih2

/-- Helper: under the data-model assumptions, the full resync emits a
strict ascending ID chain rooted at 0, and returns the last element of the
chain as the cursor. -/
theorem fullStreamResync_chain (fetch : Fetcher) (imdbID : String)
    (hs : SortedPages fetch imdbID) (hc : CrossPageConsistent fetch imdbID)
    (hp : PositiveIDs fetch imdbID) :
    List.Chain' (· < ·)
        ((0 : Int) :: successfulIDs (fullStreamResync fetch imdbID).1)
      ∧ ((0 : Int) :: successfulIDs (fullStreamResync fetch imdbID).1).getLast?
          = some (fullStreamResync fetch imdbID).2 := by
  rcases hf : fetch (firstPageOpts imdbID) with e | page
  · constructor
    · simp [fullStreamResync, hf, successfulIDs, mkErrEvent]
    · simp [fullStreamResync, hf, successfulIDs, mkErrEvent]
  · by_cases hcnt : page.TorrentsCount = 0
    · constructor
      · simp [fullStreamResync, hf, hcnt, successfulIDs]
      · simp [fullStreamResync, hf, hcnt, successfulIDs]
    · have hlb : LowerBound fetch imdbID (pageCount page.TorrentsCount).toNat 0 :=
        fun i p _ _ hfi t ht => hp i p hfi t ht
      have h := resyncPages_chain fetch imdbID hs hc
        (pageCount page.TorrentsCount).toNat 0 hlb
      constructor
      · simpa [fullStreamResync, hf, hcnt] using h.1
      · simpa [fullStreamResync, hf, hcnt] using h.2

/-- Helper: the successful IDs of one whole stream lifetime form a strict
ascending chain rooted at the cursor supplied at stream open (which is also
the initial value of `lastTorrentID` on both the resync and the resume
path), under the data-model assumptions on the fetcher. -/
theorem TorrentStream_chain (fetch : Fetcher) (streamOptions : StreamOptions)
    (ticks : List (Except GoError Page))
    (hs : SortedPages fetch (trimTT streamOptions.ImdbID))
    (hc : CrossPageConsistent fetch (trimTT streamOptions.ImdbID))
    (hp : PositiveIDs fetch (trimTT streamOptions.ImdbID)) :
    List.Chain' (· < ·) (streamOptions.LastTorrentID ::
      successfulIDs (TorrentStream fetch streamOptions ticks)) := by
  by_cases hid : trimTT streamOptions.ImdbID = ""
  · simp [TorrentStream, hid, successfulIDs, mkErrEvent]
  · by_cases hl : streamOptions.LastTorrentID = 0
    · obtain ⟨h1, h2⟩ := fullStreamResync_chain fetch
        (trimTT streamOptions.ImdbID) hs hc hp
      have h3 := pollLoop_chain ticks
        (fullStreamResync fetch (trimTT streamOptions.ImdbID)).2
      rw [hl]
      simp only [TorrentStream, if_neg hid, hl, if_pos rfl]
      rw [successfulIDs_append]
      exact chain_append_cursor h1 h2 h3
    · simpa [TorrentStream, if_neg hid, if_neg hl] using
        pollLoop_chain ticks streamOptions.LastTorrentID

/-- Helper: `wFetch` satisfies the newest-first page ordering. -/
theorem wFetch_sorted : SortedPages wFetch "55" := by
  intro i p h
  simp only [wFetch, pageOpts, MaxEZTVAPILimit] at h
  split_ifs at h with h1 h2
  · exact absurd h1 (by decide)
  · injection h with h
    subst h
    norm_num [List.chain'_cons, List.chain'_singleton, demoTorrent,
      zeroTorrent]

/-- Helper: `wFetch` satisfies cross-page consistency (vacuously: only
resync page 1 succeeds). -/
theorem wFetch_cross : CrossPageConsistent wFetch "55" := by
  intro i j p q h1 hij hpi hqj
  exfalso
  simp only [wFetch, pageOpts, MaxEZTVAPILimit] at hqj
  split_ifs at hqj with hq1 hq2
  · exact absurd hq1 (by decide)
  · have : j = 1 := by exact_mod_cast hq2
    omega

/-- Helper: all IDs served by `wFetch` are positive. -/
theorem wFetch_pos : PositiveIDs wFetch "55" := by
  intro i p h t ht
  simp only [wFetch, pageOpts, MaxEZTVAPILimit] at h
  split_ifs at h with h1 h2
  · exact absurd h1 (by decide)
  · injection h with h
    subst h
    simp only [List.mem_cons, List.not_mem_nil, or_false] at ht
    rcases ht with rfl | rfl <;> decide

/-- C1: within one stream lifetime (full resync followed by the poll loop),
the successfully emitted items are strictly increasing in ID: whenever item
A is emitted before item B, `A.ID < B.ID`.  The hypotheses are the spec's
data model for the upstream: resync pages are newest-first, pagination is
cross-page consistent, and item IDs are positive — the code itself performs
no ID filtering during the resync, so the property rests on them. -/
theorem stream_items_strictly_increasing (fetch : Fetcher)
    (streamOptions : StreamOptions) (ticks : List (Except GoError Page))
    (hs : SortedPages fetch (trimTT streamOptions.ImdbID))
    (hc : CrossPageConsistent fetch (trimTT streamOptions.ImdbID))
    (hp : PositiveIDs fetch (trimTT streamOptions.ImdbID)) :
    List.Pairwise (· < ·)
      (successfulIDs (TorrentStream fetch streamOptions ticks)) := by
  have h := TorrentStream_chain fetch streamOptions ticks hs hc hp
  exact (List.pairwise_cons.1 (List.chain'_iff_pairwise.1 h)).2

/-- C1 witness: the concrete stream over `wFetch` (resync pages [2, 1]
oldest-first, then a poll tick emitting ID 3). -/
theorem stream_items_strictly_increasing_witness :
    List.Pairwise (· < ·)
      (successfulIDs (TorrentStream wFetch wOpts [Except.ok wTickPage])) := by
  have h : trimTT wOpts.ImdbID = "55" := by decide
  exact stream_items_strictly_increasing wFetch wOpts [Except.ok wTickPage]
    (by rw [h]; exact wFetch_sorted) (by rw [h]; exact wFetch_cross)
    (by rw [h]; exact wFetch_pos)

/-- C2: the successful emissions form a strict chain above the cursor
supplied at stream open — so no item with ID at or below the cursor active
at its emission is ever emitted (first conjunct: the cursor before each
successful emission is the previous element of the chain); in particular
every emitted ID is strictly above the supplied start cursor (second
conjunct); and a poll tick whose newest item ID equals the cursor emits
nothing (third conjunct, unconditional). -/
theorem no_item_at_or_below_cursor_emitted (fetch : Fetcher)
    (streamOptions : StreamOptions) (ticks : List (Except GoError Page))
    (hs : SortedPages fetch (trimTT streamOptions.ImdbID))
    (hc : CrossPageConsistent fetch (trimTT streamOptions.ImdbID))
    (hp : PositiveIDs fetch (trimTT streamOptions.ImdbID)) :
    List.Chain' (· < ·) (streamOptions.LastTorrentID ::
        successfulIDs (TorrentStream fetch streamOptions ticks))
      ∧ (∀ n ∈ successfulIDs (TorrentStream fetch streamOptions ticks),
          streamOptions.LastTorrentID < n)
      ∧ (∀ (c : Int) (page : Page) (t : Torrent) (rest : List Torrent),
          page.Torrents = t :: rest → t.ID = c →
          pollStep c (Except.ok page) = ([], c)) := by
  have h := TorrentStream_chain fetch streamOptions ticks hs hc hp
  refine ⟨h, (List.pairwise_cons.1 (List.chain'_iff_pairwise.1 h)).1, ?_⟩
  intro c page t rest hts htid
  simp [pollStep, hts, htid]

/-- C2 witness: a stream resumed from cursor 5; the poll tick emits ID 9,
strictly above the start cursor. -/
theorem no_item_at_or_below_cursor_emitted_witness :
    List.Chain' (· < ·) (wOptsResume.LastTorrentID ::
        successfulIDs (TorrentStream wFetch wOptsResume [Except.ok wTickPage9]))
      ∧ (∀ n ∈ successfulIDs (TorrentStream wFetch wOptsResume
            [Except.ok wTickPage9]),
          wOptsResume.LastTorrentID < n)
      ∧ (∀ (c : Int) (page : Page) (t : Torrent) (rest : List Torrent),
          page.Torrents = t :: rest → t.ID = c →
          pollStep c (Except.ok page) = ([], c)) := by
  have h : trimTT wOptsResume.ImdbID = "55" := by decide
  exact no_item_at_or_below_cursor_emitted wFetch wOptsResume
    [Except.ok wTickPage9]
    (by rw [h]; exact wFetch_sorted) (by rw [h]; exact wFetch_cross)
    (by rw [h]; exact wFetch_pos)

/-- C8: the active cursor is monotonically non-decreasing across the
lifetime of one stream: its value trace — the start cursor followed by the
IDs its updates assign, one per successful emission (resync line 292, poll
line 244) — is a `≤`-chain, under the data-model assumptions. -/
theorem cursor_monotone_nondecreasing (fetch : Fetcher)
    (streamOptions : StreamOptions) (ticks : List (Except GoError Page))
    (hs : SortedPages fetch (trimTT streamOptions.ImdbID))
    (hc : CrossPageConsistent fetch (trimTT streamOptions.ImdbID))
    (hp : PositiveIDs fetch (trimTT streamOptions.ImdbID)) :
    List.Chain' (· ≤ ·) (cursorTrace streamOptions.LastTorrentID
      (TorrentStream fetch streamOptions ticks)) :=
  List.Chain'.imp (fun _ _ hab => le_of_lt hab)
    (TorrentStream_chain fetch streamOptions ticks hs hc hp)

/-- C8 witness: the concrete stream over `wFetch`. -/
theorem cursor_monotone_nondecreasing_witness :
    List.Chain' (· ≤ ·) (cursorTrace wOpts.LastTorrentID
      (TorrentStream wFetch wOpts [Except.ok wTickPage])) := by
  have h : trimTT wOpts.ImdbID = "55" := by decide
  exact cursor_monotone_nondecreasing wFetch wOpts [Except.ok wTickPage]
    (by rw [h]; exact wFetch_sorted) (by rw [h]; exact wFetch_cross)
    (by rw [h]; exact wFetch_pos)

set_option maxRecDepth 4000 in
/-- C3: with `totalCount = 250` and `maxPageSize = 100`, the engine computes
`pageCount = 3`, issues its calls in the order discovery (page 1, limit 1)
then pages 3, 2, 1 each with limit 100, and emits exactly 250 successful
items in strictly increasing ID order (1, 2, …, 250). -/
theorem resync_250_emits_increasing :
    pageCount 250 = 3
      ∧ fullStreamResyncCalls demoFetch "demo"
          = [firstPageOpts "demo", pageOpts "demo" 3, pageOpts "demo" 2,
              pageOpts "demo" 1]
      ∧ (fullStreamResync demoFetch "demo").1.length = 250
      ∧ successfulIDs (fullStreamResync demoFetch "demo").1
          = List.map (fun k : Nat => (k : Int) + 1) (List.range 250)
      ∧ List.Chain' (· < ·)
          (successfulIDs (fullStreamResync demoFetch "demo").1) := by
  have h4 : successfulIDs (fullStreamResync demoFetch "demo").1
      = List.map (fun k : Nat => (k : Int) + 1) (List.range 250) := by decide
  refine ⟨by decide, by decide, by decide, h4, ?_⟩
  rw [h4, List.chain'_iff_pairwise]
  exact List.Pairwise.map _ (fun a b hab => by omega) (List.pairwise_lt_range 250)
